import Mathlib

/-!
Verification of the SentinelX auto-dispatch engine
(`frontend/.../autoDispatch.ts`): a shallow embedding of the data model and
of the functions `getRequiredOfficers`, `calculateDistance`,
`getPatrolPosition`, `autoDispatchOfficers` and `formatDispatchSummary`,
followed by theorems about severity ordering, unit exclusivity,
proximity-based selection, and the dispatch summary.

Numbers are modelled as real numbers; JavaScript `Array.prototype.sort`
(which is required to be stable, and is invoked with a numeric-difference
comparator) is modelled by `List.mergeSort` with the corresponding `≤` test.
-/

namespace SentinelX

/-- The `Hotspot` record of `services/api.ts`.  `risk_level` is a string at
runtime (the dispatch code guards against unrecognized values). -/
structure Hotspot where
  latitude : ℝ
  longitude : ℝ
  risk_score : ℝ
  predicted_crime_type : String
  risk_level : String
  time : String
  location_name : Option String

/-- The `{ lat, lon }` position object used by `current_position`. -/
structure Position where
  lat : ℝ
  lon : ℝ

/-- The `PatrolRoute` record of `services/api.ts`.  `current_position` is an
optional field; `status` is a string at runtime. -/
structure PatrolRoute where
  id : String
  name : String
  officer : String
  status : String
  coordinates : List (ℝ × ℝ)
  current_position : Option Position
  lat : ℝ
  lon : ℝ

/-- The `DispatchAssignment` record of `autoDispatch.ts`. -/
structure DispatchAssignment where
  hotspot : Hotspot
  assignedPatrols : List PatrolRoute
  requiredOfficers : Nat

/-- `getRequiredOfficers`: a `switch` on the risk level; the `'low'` case
falls through to `default`, both returning 1. -/
def getRequiredOfficers (riskLevel : String) : Nat :=
  if riskLevel = "critical" then 3
  else if riskLevel = "high" then 2
  else if riskLevel = "medium" then 1
  else 1

/-- The object literal `{ critical: 0, high: 1, medium: 2, low: 3 }` in the
hotspot comparator; indexing with a key that is absent yields `undefined`,
modelled by `none`. -/
def severityOrder (riskLevel : String) : Option Nat :=
  if riskLevel = "critical" then some 0
  else if riskLevel = "high" then some 1
  else if riskLevel = "medium" then some 2
  else if riskLevel = "low" then some 3
  else none

/-- The JavaScript expression `severityOrder[r] || 3`: both `undefined` and
the number `0` are falsy, so the result is 3 unless the lookup yields a
nonzero number.  In particular `severityKey "critical" = 3`, not 0. -/
def severityKey (riskLevel : String) : Nat :=
  match severityOrder riskLevel with
  | some n => if n = 0 then 3 else n
  | none => 3

/-- `Math.atan2 y x` modelled as the argument of the complex number
`x + y*I` (both agree on every quadrant and send `(0, 0)` to `0`). -/
noncomputable def atan2 (y x : ℝ) : ℝ := Complex.arg ⟨x, y⟩

/-- `calculateDistance`: the haversine great-circle distance between two
latitude/longitude pairs, Earth radius 6371 km. -/
noncomputable def calculateDistance (lat1 lon1 lat2 lon2 : ℝ) : ℝ :=
  let R : ℝ := 6371
  let dLat := (lat2 - lat1) * Real.pi / 180
  let dLon := (lon2 - lon1) * Real.pi / 180
  let a :=
    Real.sin (dLat / 2) * Real.sin (dLat / 2) +
      Real.cos (lat1 * Real.pi / 180) * Real.cos (lat2 * Real.pi / 180) *
        Real.sin (dLon / 2) * Real.sin (dLon / 2)
  let c := 2 * atan2 (Real.sqrt a) (Real.sqrt (1 - a))
  R * c

/-- `getPatrolPosition`: the unit's `current_position` when present
(an object is always truthy), else the static `lat`/`lon` fallback. -/
def getPatrolPosition (patrol : PatrolRoute) : Position :=
  match patrol.current_position with
  | some pos => pos
  | none => { lat := patrol.lat, lon := patrol.lon }

/-- The distance from a hotspot to a patrol computed inside the `map` of
`autoDispatchOfficers`: haversine distance to the patrol's resolved
position. -/
noncomputable def patrolDist (hotspot : Hotspot) (patrol : PatrolRoute) : ℝ :=
  let pos := getPatrolPosition patrol
  calculateDistance hotspot.latitude hotspot.longitude pos.lat pos.lon

/-- The `.filter((p) => !assignedPatrolIds.has(p.id))` step of the per-hotspot
candidate pipeline: available patrols whose id has not been consumed yet. -/
def stillUnassigned (availablePatrols : List PatrolRoute)
    (assignedPatrolIds : List String) : List PatrolRoute :=
  availablePatrols.filter fun p => decide (p.id ∉ assignedPatrolIds)

/-- The `.map((patrol) => { ... return { patrol, distance } })` step: each
still-unassigned patrol paired with its distance to the hotspot. -/
noncomputable def patrolsWithDistance (availablePatrols : List PatrolRoute)
    (assignedPatrolIds : List String) (hotspot : Hotspot) :
    List (PatrolRoute × ℝ) :=
  (stillUnassigned availablePatrols assignedPatrolIds).map
    fun patrol => (patrol, patrolDist hotspot patrol)

/-- The `.sort((a, b) => a.distance - b.distance)` step: the candidate pairs
sorted ascending by distance (JavaScript `Array.prototype.sort` is a stable
sort, modelled by `List.mergeSort`). -/
noncomputable def candidatePatrols (availablePatrols : List PatrolRoute)
    (assignedPatrolIds : List String) (hotspot : Hotspot) :
    List (PatrolRoute × ℝ) :=
  (patrolsWithDistance availablePatrols assignedPatrolIds hotspot).mergeSort
    fun a b => decide (a.2 ≤ b.2)

/-- The inner `for (let i = 0; i < requiredOfficers && i < ...length; i++)`
loop: the patrols of the first `requiredOfficers` sorted candidates. -/
noncomputable def chosenPatrols (availablePatrols : List PatrolRoute)
    (assignedPatrolIds : List String) (hotspot : Hotspot) : List PatrolRoute :=
  ((candidatePatrols availablePatrols assignedPatrolIds hotspot).take
    (getRequiredOfficers hotspot.risk_level)).map Prod.fst

/-- The `for (const hotspot of sortedHotspots)` loop of
`autoDispatchOfficers`, with the mutable `assignedPatrolIds` set threaded as
an explicit list of ids.  The ids of the chosen patrols are marked as
consumed; an assignment record is pushed only when at least one unit was
taken. -/
noncomputable def dispatchLoop (availablePatrols : List PatrolRoute) :
    List Hotspot → List String → List DispatchAssignment
  | [], _ => []
  | hotspot :: rest, assignedPatrolIds =>
    let requiredOfficers := getRequiredOfficers hotspot.risk_level
    let assignedPatrolsForHotspot :=
      chosenPatrols availablePatrols assignedPatrolIds hotspot
    let newIds :=
      assignedPatrolIds ++ assignedPatrolsForHotspot.map PatrolRoute.id
    if assignedPatrolsForHotspot.length > 0 then
      { hotspot := hotspot, assignedPatrols := assignedPatrolsForHotspot,
        requiredOfficers := requiredOfficers } ::
        dispatchLoop availablePatrols rest newIds
    else
      dispatchLoop availablePatrols rest newIds

/-- The hotspot comparator
`(severityOrder[a.risk_level] || 3) - (severityOrder[b.risk_level] || 3)`:
the sort it induces is ascending in `severityKey` and stable. -/
def severityLE (a b : Hotspot) : Bool :=
  decide (severityKey a.risk_level ≤ severityKey b.risk_level)

/-- `autoDispatchOfficers`: sort hotspots with the severity comparator
(a stable sort), keep the `status == 'active'` patrols (the consumed-id set
is still empty at that point), then run the assignment loop. -/
noncomputable def autoDispatchOfficers (hotspots : List Hotspot)
    (patrols : List PatrolRoute) : List DispatchAssignment :=
  let sortedHotspots := hotspots.mergeSort severityLE
  let availablePatrols := patrols.filter fun p => p.status == "active"
  dispatchLoop availablePatrols sortedHotspots []

/-- `formatDispatchSummary`: renders the total of dispatched units and the
counts of critical / high assignments. -/
def formatDispatchSummary (assignments : List DispatchAssignment) : String :=
  let totalDispatched :=
    assignments.foldl (fun sum a => sum + a.assignedPatrols.length) 0
  let critical :=
    (assignments.filter fun a => a.hotspot.risk_level == "critical").length
  let high :=
    (assignments.filter fun a => a.hotspot.risk_level == "high").length
  toString totalDispatched ++ " officers dispatched (" ++
    toString critical ++ " critical, " ++ toString high ++ " high priority)"

/-! Concrete fixtures used to exercise the theorems on explicit inputs. -/

/-- A critical hotspot at the origin. -/
def hotspotCritical : Hotspot :=
  { latitude := 0, longitude := 0, risk_score := 0, predicted_crime_type := "",
    risk_level := "critical", time := "", location_name := none }

/-- A high hotspot at the origin. -/
def hotspotHigh : Hotspot :=
  { latitude := 0, longitude := 0, risk_score := 0, predicted_crime_type := "",
    risk_level := "high", time := "", location_name := none }

/-- A low hotspot at the origin. -/
def hotspotLow : Hotspot :=
  { latitude := 0, longitude := 0, risk_score := 0, predicted_crime_type := "",
    risk_level := "low", time := "", location_name := none }

/-- An active unit at the origin with no live position. -/
def unit1 : PatrolRoute :=
  { id := "u1", name := "", officer := "", status := "active",
    coordinates := [], current_position := none, lat := 0, lon := 0 }

/-- A second active unit at the origin. -/
def unit2 : PatrolRoute :=
  { id := "u2", name := "", officer := "", status := "active",
    coordinates := [], current_position := none, lat := 0, lon := 0 }

/-- An active unit with a live tracked position differing from its static
fallback coordinates. -/
def unitLive : PatrolRoute :=
  { id := "u9", name := "", officer := "", status := "active",
    coordinates := [], current_position := some { lat := 1, lon := 2 },
    lat := 5, lon := 6 }

/-- A paused unit at the origin. -/
def unitPaused : PatrolRoute :=
  { id := "u3", name := "", officer := "", status := "paused",
    coordinates := [], current_position := none, lat := 0, lon := 0 }

/-! Theorems. -/

/-- Claim C5: `getRequiredOfficers` is a total function on strings returning
3 for "critical", 2 for "high", 1 for "medium", 1 for "low", and 1 for every
other input string. -/
theorem getRequiredOfficers_spec :
    getRequiredOfficers "critical" = 3 ∧ getRequiredOfficers "high" = 2 ∧
    getRequiredOfficers "medium" = 1 ∧ getRequiredOfficers "low" = 1 ∧
    ∀ s : String, s ≠ "critical" → s ≠ "high" → s ≠ "medium" →
      getRequiredOfficers s = 1 := by
  refine ⟨rfl, rfl, rfl, rfl, ?_⟩
  intro s h1 h2 h3
  simp [getRequiredOfficers, h1, h2, h3]

/-- Witness for C5: an unrecognized level yields 1. -/
theorem getRequiredOfficers_spec_witness : getRequiredOfficers "foo" = 1 :=
  getRequiredOfficers_spec.2.2.2.2 "foo" (by decide) (by decide) (by decide)

/-- Claim C7: `getPatrolPosition` returns `current_position` when present,
else the static `lat`/`lon` pair, and every distance computed by the
dispatch loop for such a unit uses the `current_position` coordinates. -/
theorem getPatrolPosition_spec :
    (∀ (patrol : PatrolRoute) (pos : Position),
        patrol.current_position = some pos →
          getPatrolPosition patrol = pos ∧
            ∀ h : Hotspot, patrolDist h patrol =
              calculateDistance h.latitude h.longitude pos.lat pos.lon) ∧
    ∀ patrol : PatrolRoute, patrol.current_position = none →
      getPatrolPosition patrol = { lat := patrol.lat, lon := patrol.lon } := by
  constructor
  · intro patrol pos hp
    have hg : getPatrolPosition patrol = pos := by simp [getPatrolPosition, hp]
    exact ⟨hg, fun h => by simp [patrolDist, hg]⟩
  · intro patrol hp
    simp [getPatrolPosition, hp]

/-- Witness for C7: a unit with live position (1, 2) and static fallback
(5, 6) resolves to (1, 2), and its dispatch distance is computed from
(1, 2). -/
theorem getPatrolPosition_spec_witness :
    getPatrolPosition unitLive = { lat := 1, lon := 2 } ∧
    patrolDist hotspotLow unitLive =
      calculateDistance hotspotLow.latitude hotspotLow.longitude 1 2 := by
  have h := getPatrolPosition_spec.1 unitLive { lat := 1, lon := 2 } rfl
  exact ⟨h.1, h.2 hotspotLow⟩

/-- Claim C9: `formatDispatchSummary` reports the sum of
`assignedPatrols.length`, the count of critical assignments and the count of
high assignments; on the empty list all three are 0. -/
theorem formatDispatchSummary_spec :
    (∀ assignments : List DispatchAssignment,
      formatDispatchSummary assignments =
        toString ((assignments.map fun a => a.assignedPatrols.length).sum) ++
          " officers dispatched (" ++
          toString ((assignments.filter
            fun a => a.hotspot.risk_level == "critical").length) ++
          " critical, " ++
          toString ((assignments.filter
            fun a => a.hotspot.risk_level == "high").length) ++
          " high priority)") ∧
    formatDispatchSummary [] =
      "0 officers dispatched (0 critical, 0 high priority)" := by
  have hsum : ∀ (l : List DispatchAssignment) (n : Nat),
      l.foldl (fun sum a => sum + a.assignedPatrols.length) n =
        n + (l.map fun a => a.assignedPatrols.length).sum := by
    intro l
    induction l with
    | nil => simp
    | cons x xs ih => intro n; simp [ih, Nat.add_assoc]
  constructor
  · intro assignments
    simp [formatDispatchSummary, hsum assignments 0]
  · rfl

/-- Helper: `Math.atan2` of a non-negative ordinate is non-negative. -/
theorem atan2_nonneg (y x : ℝ) (hy : 0 ≤ y) : 0 ≤ atan2 y x := by
  rw [atan2, Complex.arg_nonneg_iff]
  exact hy

/-- Helper: `Math.atan2 0 1 = 0`. -/
theorem atan2_zero_one : atan2 0 1 = 0 := by
  have h : (⟨1, 0⟩ : ℂ) = 1 := by
    apply Complex.ext <;> simp
  rw [atan2, h, Complex.arg_one]

/-- Claim C8 (amended): `calculateDistance` is symmetric, non-negative, and
zero whenever the two points are identical (but not only then: distinct
coordinate pairs denoting the same geographic point, e.g. longitudes 360°
apart, also yield zero). -/
theorem calculateDistance_spec (lat1 lon1 lat2 lon2 : ℝ) :
    calculateDistance lat1 lon1 lat2 lon2 =
      calculateDistance lat2 lon2 lat1 lon1 ∧
    0 ≤ calculateDistance lat1 lon1 lat2 lon2 ∧
    (lat1 = lat2 → lon1 = lon2 → calculateDistance lat1 lon1 lat2 lon2 = 0) := by
  refine ⟨?_, ?_, ?_⟩
  · simp only [calculateDistance]
    have hA :
        Real.sin ((lat2 - lat1) * Real.pi / 180 / 2) *
            Real.sin ((lat2 - lat1) * Real.pi / 180 / 2) +
          Real.cos (lat1 * Real.pi / 180) * Real.cos (lat2 * Real.pi / 180) *
            Real.sin ((lon2 - lon1) * Real.pi / 180 / 2) *
            Real.sin ((lon2 - lon1) * Real.pi / 180 / 2) =
        Real.sin ((lat1 - lat2) * Real.pi / 180 / 2) *
            Real.sin ((lat1 - lat2) * Real.pi / 180 / 2) +
          Real.cos (lat2 * Real.pi / 180) * Real.cos (lat1 * Real.pi / 180) *
            Real.sin ((lon1 - lon2) * Real.pi / 180 / 2) *
            Real.sin ((lon1 - lon2) * Real.pi / 180 / 2) := by
      rw [show (lat1 - lat2) * Real.pi / 180 / 2 =
            -((lat2 - lat1) * Real.pi / 180 / 2) by ring,
          show (lon1 - lon2) * Real.pi / 180 / 2 =
            -((lon2 - lon1) * Real.pi / 180 / 2) by ring]
      simp only [Real.sin_neg]
      ring
    rw [hA]
  · simp only [calculateDistance]
    refine mul_nonneg (by norm_num) (mul_nonneg (by norm_num) ?_)
    exact atan2_nonneg _ _ (Real.sqrt_nonneg _)
  · intro h1 h2
    subst h1
    subst h2
    simp [calculateDistance, Real.sqrt_one, atan2_zero_one]

/-- Witness for C8: the distance from a point to itself is zero. -/
theorem calculateDistance_spec_witness : calculateDistance 1 2 1 2 = 0 :=
  (calculateDistance_spec 1 2 1 2).2.2 rfl rfl

/-- Counterexample for C8 as stated: the points (0, 0) and (0, 360) are not
identical, yet their haversine distance is 0 (longitudes 360° apart denote
the same meridian), refuting "zero only if the two points are identical". -/
theorem calculateDistance_zero_not_identical :
    calculateDistance 0 0 0 360 = 0 ∧ (0 : ℝ) ≠ 360 := by
  constructor
  · have h1 : ((360 : ℝ) - 0) * Real.pi / 180 / 2 = Real.pi := by ring
    have h2 : ((0 : ℝ) - 0) * Real.pi / 180 / 2 = 0 := by ring
    simp only [calculateDistance, h1, h2]
    norm_num [Real.sqrt_one, atan2_zero_one]
  · norm_num

/-- Unfolding equation for one iteration of the dispatch loop. -/
theorem dispatchLoop_cons (available : List PatrolRoute) (h : Hotspot)
    (rest : List Hotspot) (ids : List String) :
    dispatchLoop available (h :: rest) ids =
      if (chosenPatrols available ids h).length > 0 then
        { hotspot := h, assignedPatrols := chosenPatrols available ids h,
          requiredOfficers := getRequiredOfficers h.risk_level } ::
          dispatchLoop available rest
            (ids ++ (chosenPatrols available ids h).map PatrolRoute.id)
      else
        dispatchLoop available rest
          (ids ++ (chosenPatrols available ids h).map PatrolRoute.id) := by
  simp only [dispatchLoop]

/-- A candidate pair comes from the available pool and its id has not been
consumed. -/
theorem mem_candidatePatrols {available : List PatrolRoute} {ids : List String}
    {h : Hotspot} {pr : PatrolRoute × ℝ}
    (hm : pr ∈ candidatePatrols available ids h) :
    pr.1 ∈ available ∧ pr.1.id ∉ ids := by
  rw [candidatePatrols, List.mem_mergeSort, patrolsWithDistance] at hm
  obtain ⟨q, hq, rfl⟩ := List.mem_map.mp hm
  rw [stillUnassigned, List.mem_filter] at hq
  exact ⟨hq.1, by simpa using hq.2⟩

/-- A chosen patrol comes from the available pool and its id has not been
consumed. -/
theorem mem_chosenPatrols {available : List PatrolRoute} {ids : List String}
    {h : Hotspot} {p : PatrolRoute}
    (hm : p ∈ chosenPatrols available ids h) :
    p ∈ available ∧ p.id ∉ ids := by
  rw [chosenPatrols] at hm
  obtain ⟨pr, hpr, rfl⟩ := List.mem_map.mp hm
  exact mem_candidatePatrols (List.take_subset _ _ hpr)

/-- Every patrol of every emitted assignment comes from the available pool
and had an unconsumed id when the loop started. -/
theorem dispatchLoop_mem (available : List PatrolRoute) :
    ∀ (hs : List Hotspot) (ids : List String) (a : DispatchAssignment),
      a ∈ dispatchLoop available hs ids →
      ∀ p ∈ a.assignedPatrols, p ∈ available ∧ p.id ∉ ids := by
  intro hs
  induction hs with
  | nil => intro ids a ha; simp [dispatchLoop] at ha
  | cons h rest ih =>
    intro ids a ha p hp
    rw [dispatchLoop_cons] at ha
    by_cases hc : (chosenPatrols available ids h).length > 0
    · rw [if_pos hc] at ha
      rcases List.mem_cons.mp ha with rfl | ha'
      · exact mem_chosenPatrols hp
      · have hrec := ih _ a ha' p hp
        exact ⟨hrec.1, fun hin => hrec.2 (List.mem_append_left _ hin)⟩
    · rw [if_neg hc] at ha
      have hrec := ih _ a ha p hp
      exact ⟨hrec.1, fun hin => hrec.2 (List.mem_append_left _ hin)⟩

/-- The ids of the chosen patrols are distinct when the available pool has
distinct ids. -/
theorem chosenPatrols_ids_nodup {available : List PatrolRoute}
    {ids : List String} {h : Hotspot}
    (hnd : (available.map PatrolRoute.id).Nodup) :
    ((chosenPatrols available ids h).map PatrolRoute.id).Nodup := by
  have h1 : ((patrolsWithDistance available ids h).map
      (fun pr => pr.1.id)).Nodup := by
    rw [patrolsWithDistance, List.map_map, stillUnassigned,
      show ((fun pr : PatrolRoute × ℝ => pr.1.id) ∘
          fun patrol => (patrol, patrolDist h patrol)) = PatrolRoute.id from rfl]
    exact List.Sublist.nodup ((List.filter_sublist _).map PatrolRoute.id) hnd
  have hp : List.Perm (candidatePatrols available ids h)
      (patrolsWithDistance available ids h) := List.mergeSort_perm _ _
  have h2 : ((candidatePatrols available ids h).map
      (fun pr => pr.1.id)).Nodup :=
    ((hp.map fun pr => pr.1.id).nodup_iff).mpr h1
  rw [chosenPatrols, List.map_map,
    show (PatrolRoute.id ∘ (Prod.fst : PatrolRoute × ℝ → PatrolRoute)) =
      fun pr : PatrolRoute × ℝ => pr.1.id from rfl]
  exact List.Sublist.nodup ((List.take_sublist _ _).map _) h2

/-- Invariant of the dispatch loop: when the available pool has pairwise
distinct ids, the ids of all dispatched patrols are distinct, none of them
was already consumed, and all of them come from the pool. -/
theorem dispatchLoop_ids_facts (available : List PatrolRoute)
    (hnd : (available.map PatrolRoute.id).Nodup) :
    ∀ (hs : List Hotspot) (ids : List String),
      ((dispatchLoop available hs ids).flatMap
        fun a => a.assignedPatrols.map PatrolRoute.id).Nodup ∧
      ∀ x ∈ (dispatchLoop available hs ids).flatMap
          fun a => a.assignedPatrols.map PatrolRoute.id,
        x ∉ ids ∧ x ∈ available.map PatrolRoute.id := by
  intro hs
  induction hs with
  | nil => intro ids; simp [dispatchLoop]
  | cons h rest ih =>
    intro ids
    rw [dispatchLoop_cons]
    by_cases hc : (chosenPatrols available ids h).length > 0
    · rw [if_pos hc, List.flatMap_cons]
      obtain ⟨ihn, ihm⟩ :=
        ih (ids ++ (chosenPatrols available ids h).map PatrolRoute.id)
      constructor
      · rw [List.nodup_append]
        refine ⟨chosenPatrols_ids_nodup hnd, ihn, ?_⟩
        intro x hx1 hx2
        exact (ihm x hx2).1 (List.mem_append_right _ hx1)
      · intro x hx
        rcases List.mem_append.mp hx with hx1 | hx2
        · obtain ⟨p, hp, rfl⟩ := List.mem_map.mp hx1
          have hmp := mem_chosenPatrols hp
          exact ⟨hmp.2, List.mem_map_of_mem _ hmp.1⟩
        · obtain ⟨h1, h2⟩ := ihm x hx2
          exact ⟨fun hxi => h1 (List.mem_append_left _ hxi), h2⟩
    · rw [if_neg hc]
      obtain ⟨ihn, ihm⟩ :=
        ih (ids ++ (chosenPatrols available ids h).map PatrolRoute.id)
      refine ⟨ihn, fun x hx => ?_⟩
      obtain ⟨h1, h2⟩ := ihm x hx
      exact ⟨fun hxi => h1 (List.mem_append_left _ hxi), h2⟩

/-- A list whose concatenated images are duplicate-free has pairwise
disjoint images. -/
theorem pairwise_disjoint_of_nodup_flatMap {α β : Type} {f : α → List β}
    {l : List α} (h : (l.flatMap f).Nodup) :
    l.Pairwise fun a b => ∀ x ∈ f a, x ∉ f b := by
  induction l with
  | nil => simp
  | cons a t ih =>
    rw [List.flatMap_cons, List.nodup_append] at h
    obtain ⟨h1, h2, hdisj⟩ := h
    rw [List.pairwise_cons]
    refine ⟨fun b hb x hxa hxb => ?_, ih h2⟩
    exact hdisj hxa (List.mem_flatMap.mpr ⟨b, hb, hxb⟩)

/-- Evaluation of a one-hotspot, one-unit run, used to exercise the claim
theorems on an explicit input. -/
theorem autoDispatch_low_single :
    autoDispatchOfficers [hotspotLow] [unit1] =
      [{ hotspot := hotspotLow, assignedPatrols := [unit1],
         requiredOfficers := 1 }] := by
  simp [autoDispatchOfficers, dispatchLoop, chosenPatrols, candidatePatrols,
    patrolsWithDistance, stillUnassigned, getRequiredOfficers, hotspotLow,
    unit1]

/-- Claim C2: when all patrol units have pairwise-distinct ids, no unit id
occurs in more than one `assignedPatrols` array across the entire output of
a single `autoDispatchOfficers` call. -/
theorem autoDispatchOfficers_unit_exclusive (hotspots : List Hotspot)
    (patrols : List PatrolRoute)
    (hnd : (patrols.map PatrolRoute.id).Nodup) :
    (autoDispatchOfficers hotspots patrols).Pairwise fun a b =>
      ∀ pid : String, pid ∈ a.assignedPatrols.map PatrolRoute.id →
        pid ∉ b.assignedPatrols.map PatrolRoute.id := by
  have hndA : (((patrols.filter fun p => p.status == "active").map
      PatrolRoute.id)).Nodup :=
    List.Sublist.nodup ((List.filter_sublist _).map PatrolRoute.id) hnd
  have hfacts := (dispatchLoop_ids_facts _ hndA
    (hotspots.mergeSort severityLE) []).1
  exact pairwise_disjoint_of_nodup_flatMap hfacts

/-- Witness for C2: the exclusivity theorem applied to a concrete run with
distinct unit ids. -/
theorem autoDispatchOfficers_unit_exclusive_witness :
    ([unit1, unit2].map PatrolRoute.id).Nodup ∧
    (autoDispatchOfficers [hotspotLow, hotspotHigh]
      [unit1, unit2]).Pairwise fun a b =>
        ∀ pid : String, pid ∈ a.assignedPatrols.map PatrolRoute.id →
          pid ∉ b.assignedPatrols.map PatrolRoute.id :=
  ⟨by simp [unit1, unit2],
   autoDispatchOfficers_unit_exclusive [hotspotLow, hotspotHigh]
     [unit1, unit2] (by simp [unit1, unit2])⟩

/-- Every assignment emitted by the dispatch loop contains at least one unit
and at most the required number of units. -/
theorem dispatchLoop_size_bounds (available : List PatrolRoute) :
    ∀ (hs : List Hotspot) (ids : List String) (b : DispatchAssignment),
      b ∈ dispatchLoop available hs ids →
      1 ≤ b.assignedPatrols.length ∧
      b.assignedPatrols.length ≤ b.requiredOfficers := by
  intro hs
  induction hs with
  | nil => intro ids b hb; simp [dispatchLoop] at hb
  | cons h rest ih =>
    intro ids b hb
    rw [dispatchLoop_cons] at hb
    by_cases hc : (chosenPatrols available ids h).length > 0
    · rw [if_pos hc] at hb
      rcases List.mem_cons.mp hb with rfl | hb'
      · refine ⟨hc, ?_⟩
        rw [chosenPatrols, List.length_map]
        exact le_trans (List.length_take_le _ _) le_rfl
      · exact ih _ b hb'
    · rw [if_neg hc] at hb
      exact ih _ b hb

/-- A list of numbers that are all at least 1 is no longer than its sum. -/
theorem length_le_sum_of_one_le :
    ∀ l : List Nat, (∀ n ∈ l, 1 ≤ n) → l.length ≤ l.sum := by
  intro l
  induction l with
  | nil => simp
  | cons n t ih =>
    intro hp
    simp only [List.length_cons, List.sum_cons]
    have h1 := hp n (List.mem_cons_self _ _)
    have h2 := ih fun m hm => hp m (List.mem_cons_of_mem _ hm)
    omega

/-- Claim C4: every emitted assignment has
`1 ≤ assignedPatrols.length ≤ requiredOfficers`; a hotspot that receives
zero units is omitted from the output (no record with an empty
`assignedPatrols` array ever appears). -/
theorem autoDispatchOfficers_assignment_size (hotspots : List Hotspot)
    (patrols : List PatrolRoute) (a : DispatchAssignment)
    (ha : a ∈ autoDispatchOfficers hotspots patrols) :
    1 ≤ a.assignedPatrols.length ∧
    a.assignedPatrols.length ≤ a.requiredOfficers := by
  simp only [autoDispatchOfficers] at ha
  exact dispatchLoop_size_bounds _ _ _ a ha

/-- Witness for C4: the size bounds on the assignment of a concrete run. -/
theorem autoDispatchOfficers_assignment_size_witness :
    1 ≤ ({ hotspot := hotspotLow, assignedPatrols := [unit1],
           requiredOfficers := 1 } : DispatchAssignment).assignedPatrols.length ∧
    ({ hotspot := hotspotLow, assignedPatrols := [unit1],
       requiredOfficers := 1 } : DispatchAssignment).assignedPatrols.length ≤
      ({ hotspot := hotspotLow, assignedPatrols := [unit1],
         requiredOfficers := 1 } : DispatchAssignment).requiredOfficers :=
  autoDispatchOfficers_assignment_size [hotspotLow] [unit1] _
    (by rw [autoDispatch_low_single]; exact List.mem_singleton_self _)

/-- Claim C6: a unit whose status is not `'active'` never appears in any
`assignedPatrols` array of the output, regardless of its distance to any
hotspot. -/
theorem autoDispatchOfficers_active_only (hotspots : List Hotspot)
    (patrols : List PatrolRoute) (a : DispatchAssignment)
    (ha : a ∈ autoDispatchOfficers hotspots patrols)
    (p : PatrolRoute) (hp : p ∈ a.assignedPatrols) : p.status = "active" := by
  simp only [autoDispatchOfficers] at ha
  have hmem := (dispatchLoop_mem _ _ _ a ha p hp).1
  have := (List.mem_filter.mp hmem).2
  simpa using this

/-- Witness for C6: the only unit dispatched in a concrete run is indeed
active. -/
theorem autoDispatchOfficers_active_only_witness : unit1.status = "active" :=
  autoDispatchOfficers_active_only [hotspotLow] [unit1] _
    (by rw [autoDispatch_low_single]; exact List.mem_singleton_self _)
    unit1 (List.mem_singleton_self _)

/-- Claim C10: when all patrol units have pairwise-distinct ids, the total
number of dispatched units is at most the number of active input units, and
so is the number of assignment records (each record holds at least one
unit). -/
theorem autoDispatchOfficers_dispatch_bound (hotspots : List Hotspot)
    (patrols : List PatrolRoute)
    (hnd : (patrols.map PatrolRoute.id).Nodup) :
    ((autoDispatchOfficers hotspots patrols).map
      fun a => a.assignedPatrols.length).sum ≤
      (patrols.filter fun p => p.status == "active").length ∧
    (autoDispatchOfficers hotspots patrols).length ≤
      (patrols.filter fun p => p.status == "active").length := by
  have hndA : (((patrols.filter fun p => p.status == "active").map
      PatrolRoute.id)).Nodup :=
    List.Sublist.nodup ((List.filter_sublist _).map PatrolRoute.id) hnd
  obtain ⟨hn, hm⟩ := dispatchLoop_ids_facts _ hndA
    (hotspots.mergeSort severityLE) []
  have hauto : autoDispatchOfficers hotspots patrols =
      dispatchLoop (patrols.filter fun p => p.status == "active")
        (hotspots.mergeSort severityLE) [] := rfl
  rw [hauto]
  set out := dispatchLoop (patrols.filter fun p => p.status == "active")
    (hotspots.mergeSort severityLE) [] with hout
  have hlen : (out.flatMap fun a => a.assignedPatrols.map PatrolRoute.id).length =
      (out.map fun a => a.assignedPatrols.length).sum := by
    rw [List.flatMap_def, List.length_flatten, List.map_map]
    exact congrArg List.sum (List.map_congr_left fun a _ => by simp)
  have hsub : (out.flatMap fun a => a.assignedPatrols.map PatrolRoute.id) ⊆
      (patrols.filter fun p => p.status == "active").map PatrolRoute.id :=
    fun x hx => (hm x hx).2
  have hsum : (out.map fun a => a.assignedPatrols.length).sum ≤
      (patrols.filter fun p => p.status == "active").length := by
    have hle := (List.subperm_of_subset hn hsub).length_le
    rw [hlen] at hle
    simpa [List.length_map] using hle
  refine ⟨hsum, ?_⟩
  have hpos : ∀ n ∈ out.map fun a => a.assignedPatrols.length, 1 ≤ n := by
    intro n hn'
    obtain ⟨a, ha, rfl⟩ := List.mem_map.mp hn'
    exact (dispatchLoop_size_bounds _ _ _ a ha).1
  have h1 : out.length ≤ (out.map fun a => a.assignedPatrols.length).sum := by
    have := length_le_sum_of_one_le _ hpos
    simpa [List.length_map] using this
  exact le_trans h1 hsum

/-- Witness for C10: the bounds on a concrete run with distinct unit ids. -/
theorem autoDispatchOfficers_dispatch_bound_witness :
    ([unit1, unit2].map PatrolRoute.id).Nodup ∧
    ((autoDispatchOfficers [hotspotLow, hotspotHigh] [unit1, unit2]).map
      fun a => a.assignedPatrols.length).sum ≤
      ([unit1, unit2].filter fun p => p.status == "active").length :=
  ⟨by simp [unit1, unit2],
   (autoDispatchOfficers_dispatch_bound [hotspotLow, hotspotHigh]
     [unit1, unit2] (by simp [unit1, unit2])).1⟩

/-- Claim C3: with the still-unassigned active units as candidate pool, the
candidate list of a processed hotspot is a permutation of that pool (paired
with haversine distances to the hotspot's resolved positions), sorted
ascending by distance, stably (pairs already in non-decreasing distance
order keep their relative input order); the chosen units are exactly the
first `min(requiredOfficers, pool size)` of the sorted candidates; and
their ids are consumed so that no later assignment of the run contains
them. -/
theorem dispatchLoop_step_spec (patrols available : List PatrolRoute)
    (havail : available = patrols.filter fun p => p.status == "active")
    (ids : List String) (h : Hotspot) (rest : List Hotspot) :
    List.Perm (candidatePatrols available ids h)
      (patrolsWithDistance available ids h) ∧
    (candidatePatrols available ids h).Pairwise (fun a b => a.2 ≤ b.2) ∧
    (∀ x y : PatrolRoute × ℝ,
      List.Sublist [x, y] (patrolsWithDistance available ids h) →
      x.2 ≤ y.2 →
      List.Sublist [x, y] (candidatePatrols available ids h)) ∧
    (chosenPatrols available ids h).length =
      min (getRequiredOfficers h.risk_level)
        (stillUnassigned available ids).length ∧
    chosenPatrols available ids h =
      ((candidatePatrols available ids h).map Prod.fst).take
        (getRequiredOfficers h.risk_level) ∧
    dispatchLoop available (h :: rest) ids =
      (if (chosenPatrols available ids h).length > 0 then
        [{ hotspot := h, assignedPatrols := chosenPatrols available ids h,
           requiredOfficers := getRequiredOfficers h.risk_level }]
       else []) ++
        dispatchLoop available rest
          (ids ++ (chosenPatrols available ids h).map PatrolRoute.id) ∧
    ∀ a ∈ dispatchLoop available rest
        (ids ++ (chosenPatrols available ids h).map PatrolRoute.id),
      ∀ p ∈ a.assignedPatrols,
        p.id ∉ (chosenPatrols available ids h).map PatrolRoute.id := by
  have htrans : ∀ a b c : PatrolRoute × ℝ,
      decide (a.2 ≤ b.2) = true → decide (b.2 ≤ c.2) = true →
      decide (a.2 ≤ c.2) = true := by
    intro a b c hab hbc
    simp only [decide_eq_true_eq] at hab hbc ⊢
    exact le_trans hab hbc
  have htotal : ∀ a b : PatrolRoute × ℝ,
      (decide (a.2 ≤ b.2) || decide (b.2 ≤ a.2)) = true := by
    intro a b
    simp only [Bool.or_eq_true, decide_eq_true_eq]
    exact le_total a.2 b.2
  refine ⟨?_, ?_, ?_, ?_, ?_, ?_, ?_⟩
  · rw [candidatePatrols]
    exact List.mergeSort_perm _ _
  · rw [candidatePatrols]
    exact (List.sorted_mergeSort htrans htotal _).imp
      fun hab => by simpa using hab
  · intro x y hxy hle
    rw [candidatePatrols]
    exact List.pair_sublist_mergeSort htrans htotal
      (by simpa using hle) hxy
  · rw [chosenPatrols, List.length_map, List.length_take, candidatePatrols,
      List.length_mergeSort, patrolsWithDistance, List.length_map]
  · rw [chosenPatrols, List.map_take]
  · rw [dispatchLoop_cons]
    by_cases hc : (chosenPatrols available ids h).length > 0
    · rw [if_pos hc, if_pos hc, List.singleton_append]
    · rw [if_neg hc, if_neg hc, List.nil_append]
  · intro a ha p hp hin
    exact (dispatchLoop_mem _ _ _ a ha p hp).2 (List.mem_append_right _ hin)

/-- Witness for C3: in a concrete two-unit pool, the equidistant pair in
input order is (stably) kept in that order by the candidate sort. -/
theorem dispatchLoop_step_spec_witness :
    List.Sublist
      [(unit1, patrolDist hotspotLow unit1),
       (unit2, patrolDist hotspotLow unit2)]
      (candidatePatrols ([unit1, unit2].filter fun p => p.status == "active")
        [] hotspotLow) := by
  have hav : ([unit1, unit2].filter fun p => p.status == "active") =
      [unit1, unit2] := by simp [unit1, unit2]
  refine (dispatchLoop_step_spec [unit1, unit2] _ rfl [] hotspotLow
    []).2.2.1 _ _ ?_ ?_
  · rw [hav]
    have hpd : patrolsWithDistance [unit1, unit2] [] hotspotLow =
        [(unit1, patrolDist hotspotLow unit1),
         (unit2, patrolDist hotspotLow unit2)] := by
      simp [patrolsWithDistance, stillUnassigned]
    rw [hpd]
  · exact le_refl _

/-- Claim C1 (exhibiting the severity-sort defect): `severityOrder[r] || 3`
maps `critical` to 3 because its lookup value 0 is falsy in JavaScript, so
with one critical and one high hotspot and a single active unit, the unit
is dispatched to the high hotspot and the critical hotspot gets nothing. -/
theorem autoDispatch_high_before_critical :
    severityKey "critical" = 3 ∧ severityKey "high" = 1 ∧
    autoDispatchOfficers [hotspotCritical, hotspotHigh] [unit1] =
      [{ hotspot := hotspotHigh, assignedPatrols := [unit1],
         requiredOfficers := 2 }] := by
  refine ⟨by decide, by decide, ?_⟩
  have hsort : [hotspotCritical, hotspotHigh].mergeSort severityLE =
      [hotspotHigh, hotspotCritical] := by
    rw [List.mergeSort]
    simp [List.splitInTwo, List.splitAt_eq, List.merge, severityLE,
      severityKey, severityOrder, hotspotCritical, hotspotHigh]
  simp only [autoDispatchOfficers, hsort]
  simp [dispatchLoop, chosenPatrols, candidatePatrols, patrolsWithDistance,
    stillUnassigned, getRequiredOfficers, hotspotCritical, hotspotHigh,
    unit1]

end SentinelX
